import Mathlib

/-!
Shallow embedding of the osfs data path (`src/file.c`): the `osfs_read` and
`osfs_write` file operations of a single-block-per-file flat filesystem.

Modelling conventions:
* The Storage Region (`sb_info->data_blocks`) is a total map from absolute
  byte offset to byte value, `Nat → Nat`.
* `*ppos` is the caller-owned cursor, a non-negative `loff_t`; `len` is the
  requested `size_t`.  Both are 64-bit in the C source, so every arithmetic
  step that the C performs in those types is taken modulo `2 ^ 64`.
* `copy_to_user` / `copy_from_user` failure is an input flag (`copyFault`);
  the user buffer contents are a map `Nat → Nat`.
* The Block Allocator and the clock are external collaborators; their
  outcomes are inputs (`alloc : Option Nat`, `now : Nat`).
-/

namespace Osfs

/-- Modelled from the spec: `BLOCK_SIZE` is defined in `osfs.h`, which is not
part of this source slice; §8 of the spec fixes it at 4096 bytes. -/
def BLOCK_SIZE : Nat := 4096

/-- Modulus of the 64-bit types `size_t` and `loff_t` used by the source. -/
def U64 : Nat := 2 ^ 64

/-- Reinterpretation of an unsigned 64-bit count as a signed `ssize_t`, as in
`bytes_read = len` / `bytes_written = len` followed by `return`. -/
def ssizeOf (n : Nat) : Int :=
  if n % U64 < 2 ^ 63 then ((n % U64 : Nat) : Int)
  else ((n % U64 : Nat) : Int) - (U64 : Int)

/-- `-EFAULT` is returned when `copy_to_user` / `copy_from_user` fails. -/
def EFAULT : Int := 14

/-- Modelled from the spec: `osfs_alloc_data_block` lives outside this source
slice.  Per §6/§7 the Block Allocator either yields a block index or reports
exhaustion (`AllocationFailed`), surfaced as a negative errno — `-ENOSPC`
here — and leaves the File Record untouched on failure. -/
def ENOSPC : Int := 28

/-- The per-file metadata touched by `osfs_read`/`osfs_write`: the fields
`i_blocks`, `i_block`, `i_size` of `struct osfs_inode`, the timestamps
`__i_mtime`/`__i_ctime`, and the VFS dirty mark set by `mark_inode_dirty`. -/
structure OsfsInode where
  i_blocks : Nat
  i_block : Nat
  i_size : Nat
  mtime : Nat
  ctime : Nat
  dirty : Bool
deriving DecidableEq

/-- Outcome of `osfs_read`: the `ssize_t` return value, the file record (the
read path never stores to it), the cursor `*ppos`, and the bytes copied into
the caller's buffer. -/
structure ReadResult where
  ret : Int
  ino : OsfsInode
  pos : Nat
  data : List Nat
deriving DecidableEq

/-- Outcome of `osfs_write`: the `ssize_t` return value, the file record, the
Storage Region, and the cursor `*ppos`. -/
structure WriteResult where
  ret : Int
  ino : OsfsInode
  storage : Nat → Nat
  pos : Nat

/-- The read-length clipping of src/file.c:33-34:
`if (*ppos + len > i_size) len = i_size - *ppos;`, with the comparison in
64-bit arithmetic.  It is only reached when `ppos < size`. -/
def readLen (size ppos len : Nat) : Nat :=
  if (ppos + len) % U64 > size then size - ppos else len

/-- `osfs_read` (src/file.c:18-44).  Returns 0 with no transfer when no block
was ever allocated or when the cursor is at/past `i_size`; otherwise clips the
length to `i_size - *ppos`, copies from
`data_blocks + i_block * BLOCK_SIZE + *ppos`, and advances the cursor. -/
def osfs_read (ino : OsfsInode) (storage : Nat → Nat) (ppos len : Nat)
    (copyFault : Bool) : ReadResult :=
  if ino.i_blocks = 0 then ⟨0, ino, ppos, []⟩
  else if ino.i_size ≤ ppos then ⟨0, ino, ppos, []⟩
  else
    let len2 := readLen ino.i_size ppos len
    if copyFault then ⟨-EFAULT, ino, ppos, []⟩
    else
      let start := ino.i_block * BLOCK_SIZE + ppos
      ⟨ssizeOf len2, ino, (ppos + len2) % U64,
        (List.range len2).map fun k => storage (start + k)⟩

/-- The write-length clipping of src/file.c:84-86:
`if (*ppos + len > BLOCK_SIZE) len = BLOCK_SIZE - *ppos;`.
The comparison and the subtraction are 64-bit and `len` is the unsigned
`size_t`, so `BLOCK_SIZE - *ppos` is taken modulo `2 ^ 64`: for
`*ppos > BLOCK_SIZE` the assigned length wraps around to a huge count
instead of clamping to zero. -/
def clipLen (ppos len : Nat) : Nat :=
  if (ppos + len) % U64 > BLOCK_SIZE then (U64 + BLOCK_SIZE - ppos % U64) % U64
  else len

/-- Steps 3-6 of `osfs_write` (src/file.c:82-112), entered once a data block
is bound: clip the length, copy from the user buffer into
`data_blocks + i_block * BLOCK_SIZE + *ppos` (failing with `-EFAULT` and no
metadata change on a copy fault), advance the cursor, grow `i_size` when the
new cursor passes it, stamp `__i_mtime`/`__i_ctime`, and mark dirty. -/
def osfs_write_body (ino : OsfsInode) (storage : Nat → Nat) (ppos len : Nat)
    (copyFault : Bool) (src : Nat → Nat) (now : Nat) : WriteResult :=
  let len2 := clipLen ppos len
  if copyFault then ⟨-EFAULT, ino, storage, ppos⟩
  else
    let start := ino.i_block * BLOCK_SIZE + ppos
    let storage2 := fun a => if start ≤ a ∧ a < start + len2 then src (a - start)
                             else storage a
    let pos2 := (ppos + len2) % U64
    let size2 := if pos2 > ino.i_size then pos2 else ino.i_size
    ⟨ssizeOf len2,
     { ino with i_size := size2, mtime := now, ctime := now, dirty := true },
     storage2, pos2⟩

/-- `osfs_write` (src/file.c:60-113).  If no block is allocated yet, asks the
Block Allocator first: on failure it returns the allocator's error with the
record untouched; on success it records the block index, sets `i_blocks = 1`,
and proceeds with the write body. -/
def osfs_write (ino : OsfsInode) (storage : Nat → Nat) (ppos len : Nat)
    (alloc : Option Nat) (copyFault : Bool) (src : Nat → Nat) (now : Nat) :
    WriteResult :=
  if ino.i_blocks = 0 then
    match alloc with
    | none => ⟨-ENOSPC, ino, storage, ppos⟩
    | some b =>
        osfs_write_body { ino with i_blocks := 1, i_block := b } storage ppos len
          copyFault src now
  else osfs_write_body ino storage ppos len copyFault src now

/-! ### Arithmetic helper lemmas -/

lemma ssizeOf_eq_of_lt (n : Nat) (h : n < 2 ^ 63) : ssizeOf n = (n : Int) := by
  unfold ssizeOf U64
  split <;> omega

lemma ssizeOf_nonneg_iff (n : Nat) : 0 ≤ ssizeOf n ↔ n % U64 < 2 ^ 63 := by
  unfold ssizeOf U64
  split <;> omega

/-- Whatever the inputs, the cursor after the write body lands at or below
`BLOCK_SIZE`: either no clipping happened and `*ppos + len ≤ BLOCK_SIZE`
modulo `2 ^ 64`, or the clipped length moves the cursor to exactly
`BLOCK_SIZE` (also in the underflowing case). -/
lemma pos_after_clip_le (p len : Nat) : (p + clipLen p len) % U64 ≤ BLOCK_SIZE := by
  unfold clipLen U64 BLOCK_SIZE
  split <;> omega

/-- If the clipped write length reinterprets to a non-negative `ssize_t`
(the write "succeeded"), then no underflow occurred:
`ppos + clipLen ppos len ≤ BLOCK_SIZE`. -/
lemma clipLen_success (p len : Nat) (hp : p < 2 ^ 63) (hlen : len < U64)
    (h : clipLen p len % U64 < 2 ^ 63) : p + clipLen p len ≤ BLOCK_SIZE := by
  by_cases hc : (p + len) % U64 > BLOCK_SIZE
  · simp only [clipLen, if_pos hc] at h ⊢
    simp only [U64, BLOCK_SIZE] at *
    omega
  · simp only [clipLen, if_neg hc] at h ⊢
    simp only [U64, BLOCK_SIZE] at *
    omega

lemma write_body_size_le (jno : OsfsInode) (st : Nat → Nat) (p len : Nat)
    (fault : Bool) (src : Nat → Nat) (now : Nat) (h : jno.i_size ≤ BLOCK_SIZE) :
    (osfs_write_body jno st p len fault src now).ino.i_size ≤ BLOCK_SIZE := by
  simp only [osfs_write_body]
  split
  · exact h
  · dsimp only
    split
    · exact pos_after_clip_le p len
    · exact h

lemma readLen_eq_min (size p len : Nat) (hov : p + len < U64) (hlt : p < size) :
    readLen size p len = min len (size - p) := by
  unfold readLen
  rw [Nat.mod_eq_of_lt hov]
  split <;> omega

lemma write_body_size_monotone (jno : OsfsInode) (st : Nat → Nat) (p len : Nat)
    (fault : Bool) (src : Nat → Nat) (now : Nat)
    (h : 0 ≤ (osfs_write_body jno st p len fault src now).ret) :
    ((osfs_write_body jno st p len fault src now).pos > jno.i_size →
      (osfs_write_body jno st p len fault src now).ino.i_size =
        (osfs_write_body jno st p len fault src now).pos) ∧
    ((osfs_write_body jno st p len fault src now).pos ≤ jno.i_size →
      (osfs_write_body jno st p len fault src now).ino.i_size = jno.i_size) ∧
    jno.i_size ≤ (osfs_write_body jno st p len fault src now).ino.i_size := by
  cases fault with
  | true =>
      have hr : (osfs_write_body jno st p len true src now).ret = -EFAULT := rfl
      rw [hr] at h
      exact absurd h (by decide)
  | false =>
      simp only [osfs_write_body, Bool.false_eq_true, if_false]
      refine ⟨?_, ?_, ?_⟩
      · intro h2
        rw [if_pos h2]
      · intro h2
        rw [if_neg (by omega)]
      · split <;> omega

lemma write_body_roundtrip (jno : OsfsInode) (st : Nat → Nat) (p len : Nat)
    (src : Nat → Nat) (now : Nat) (hb : ¬ jno.i_blocks = 0)
    (hp : p < 2 ^ 63) (hlen : len < U64)
    (h : 0 ≤ (osfs_write_body jno st p len false src now).ret) :
    osfs_read (osfs_write_body jno st p len false src now).ino
        (osfs_write_body jno st p len false src now).storage p
        (osfs_write_body jno st p len false src now).ret.toNat false =
      ⟨(osfs_write_body jno st p len false src now).ret,
       (osfs_write_body jno st p len false src now).ino,
       p + (osfs_write_body jno st p len false src now).ret.toNat,
       (List.range (osfs_write_body jno st p len false src now).ret.toNat).map src⟩ := by
  have hU : U64 = 2 ^ 64 := rfl
  have hBS : BLOCK_SIZE = 4096 := rfl
  have hret : (osfs_write_body jno st p len false src now).ret = ssizeOf (clipLen p len) := rfl
  have hsm : clipLen p len % U64 < 2 ^ 63 := (ssizeOf_nonneg_iff _).mp (hret ▸ h)
  have hbound : p + clipLen p len ≤ BLOCK_SIZE := clipLen_success p len hp hlen hsm
  have hL63 : clipLen p len < 2 ^ 63 := by omega
  have hretL : (osfs_write_body jno st p len false src now).ret = (clipLen p len : Int) := by
    rw [hret, ssizeOf_eq_of_lt _ hL63]
  have htoNat : (osfs_write_body jno st p len false src now).ret.toNat = clipLen p len := by
    rw [hretL]
    exact Int.toNat_natCast _
  have hposmod : (p + clipLen p len) % U64 = p + clipLen p len := Nat.mod_eq_of_lt (by omega)
  have hino : (osfs_write_body jno st p len false src now).ino =
      { jno with
        i_size := if (p + clipLen p len) % U64 > jno.i_size then (p + clipLen p len) % U64
                  else jno.i_size,
        mtime := now, ctime := now, dirty := true } := rfl
  have hstor : (osfs_write_body jno st p len false src now).storage =
      fun a => if jno.i_block * BLOCK_SIZE + p ≤ a ∧
                  a < jno.i_block * BLOCK_SIZE + p + clipLen p len
               then src (a - (jno.i_block * BLOCK_SIZE + p)) else st a := rfl
  rw [htoNat, hretL, hino, hstor]
  set s := if (p + clipLen p len) % U64 > jno.i_size then (p + clipLen p len) % U64
           else jno.i_size with hs
  have hsge : p + clipLen p len ≤ s := by
    rw [hs, hposmod]
    split <;> omega
  unfold osfs_read
  rw [if_neg (show ¬ ({ jno with i_size := s, mtime := now, ctime := now, dirty := true } : OsfsInode).i_blocks = 0 from hb)]
  by_cases heof : ({ jno with i_size := s, mtime := now, ctime := now, dirty := true } : OsfsInode).i_size ≤ p
  · rw [if_pos heof]
    have heof2 : s ≤ p := heof
    have hL0 : clipLen p len = 0 := by omega
    rw [hL0]
    simp
  · rw [if_neg heof]
    have hrl : readLen ({ jno with i_size := s, mtime := now, ctime := now, dirty := true } : OsfsInode).i_size p (clipLen p len) = clipLen p len := by
      show readLen s p (clipLen p len) = clipLen p len
      unfold readLen
      rw [hposmod]
      exact if_neg (by omega)
    dsimp only
    rw [hrl]
    simp only [Bool.false_eq_true, if_false]
    rw [ssizeOf_eq_of_lt _ hL63, hposmod]
    congr 1
    apply List.map_congr_left
    intro k hk
    have hk2 : k < clipLen p len := List.mem_range.mp hk
    rw [if_pos ⟨by omega, by omega⟩]
    congr 1
    omega

/-! ### Claims -/

/-- Claim C3: the invariant `logical_size ≤ block_size` (the lower bound is
type-level) is preserved by every write — successful or failing, from any
state satisfying it — and every read leaves the File Record untouched, so it
preserves the invariant as well. -/
theorem read_write_preserve_size_invariant (ino : OsfsInode) (st : Nat → Nat)
    (p len : Nat) (alloc : Option Nat) (fault : Bool) (src : Nat → Nat) (now : Nat)
    (st2 : Nat → Nat) (p2 len2 : Nat) (f2 : Bool)
    (h : ino.i_size ≤ BLOCK_SIZE) :
    (osfs_write ino st p len alloc fault src now).ino.i_size ≤ BLOCK_SIZE ∧
    (osfs_read ino st2 p2 len2 f2).ino = ino := by
  constructor
  · unfold osfs_write
    split
    · cases alloc with
      | none => exact h
      | some b => exact write_body_size_le _ _ _ _ _ _ _ h
    · exact write_body_size_le _ _ _ _ _ _ _ h
  · unfold osfs_read
    split
    · rfl
    · split
      · rfl
      · dsimp only
        split
        · rfl
        · rfl

/-- Witness for C3 at a concrete state and concrete inputs. -/
theorem read_write_preserve_size_invariant_witness :
    (⟨1, 0, 10, 0, 0, false⟩ : OsfsInode).i_size ≤ BLOCK_SIZE ∧
    ((osfs_write ⟨1, 0, 10, 0, 0, false⟩ (fun _ => 0) 3 5 none false (fun _ => 7) 2).ino.i_size ≤ BLOCK_SIZE ∧
     (osfs_read ⟨1, 0, 10, 0, 0, false⟩ (fun _ => 0) 4 6 false).ino = ⟨1, 0, 10, 0, 0, false⟩) :=
  ⟨by decide,
   read_write_preserve_size_invariant ⟨1, 0, 10, 0, 0, false⟩ (fun _ => 0) 3 5 none false
     (fun _ => 7) 2 (fun _ => 0) 4 6 false (by decide)⟩

/-- Claim C6: on a file with `i_blocks = 0` (no block ever allocated), a read
at any cursor, for any requested length, and regardless of whether the user
buffer would fault, transfers 0 bytes, reports no error, and changes
nothing. -/
theorem read_on_unallocated_is_empty (ino : OsfsInode) (st : Nat → Nat)
    (p len : Nat) (fault : Bool) (h : ino.i_blocks = 0) :
    osfs_read ino st p len fault = ⟨0, ino, p, []⟩ := by
  unfold osfs_read
  rw [if_pos h]

/-- Witness for C6 on a concrete empty file, with a faulting buffer. -/
theorem read_on_unallocated_is_empty_witness :
    osfs_read ⟨0, 0, 0, 0, 0, false⟩ (fun _ => 3) 5 10 true =
      ⟨0, ⟨0, 0, 0, 0, 0, false⟩, 5, []⟩ :=
  read_on_unallocated_is_empty ⟨0, 0, 0, 0, 0, false⟩ (fun _ => 3) 5 10 true rfl

/-- Claim C7: when the Block Allocator fails during a write on an unallocated
file, the write returns the allocator's error (`AllocationFailed`) with the
File Record, the Storage Region and the cursor all unchanged, and any
subsequent read on the still-unallocated file transfers 0 bytes. -/
theorem write_alloc_failure_leaves_state (ino : OsfsInode) (st : Nat → Nat)
    (p len : Nat) (fault : Bool) (src : Nat → Nat) (now : Nat)
    (h : ino.i_blocks = 0) :
    osfs_write ino st p len none fault src now = ⟨-ENOSPC, ino, st, p⟩ ∧
    ∀ p2 len2 : Nat, ∀ f2 : Bool, osfs_read ino st p2 len2 f2 = ⟨0, ino, p2, []⟩ := by
  constructor
  · unfold osfs_write
    rw [if_pos h]
  · intro p2 len2 f2
    unfold osfs_read
    rw [if_pos h]

/-- Witness for C7 on a concrete unallocated file with an exhausted allocator. -/
theorem write_alloc_failure_leaves_state_witness :
    osfs_write ⟨0, 0, 0, 0, 0, false⟩ (fun _ => 8) 2 9 none false (fun _ => 1) 4 =
      ⟨-ENOSPC, ⟨0, 0, 0, 0, 0, false⟩, fun _ => 8, 2⟩ ∧
    ∀ p2 len2 : Nat, ∀ f2 : Bool,
      osfs_read ⟨0, 0, 0, 0, 0, false⟩ (fun _ => 8) p2 len2 f2 =
        ⟨0, ⟨0, 0, 0, 0, 0, false⟩, p2, []⟩ :=
  write_alloc_failure_leaves_state ⟨0, 0, 0, 0, 0, false⟩ (fun _ => 8) 2 9 false
    (fun _ => 1) 4 rfl

/-- Claim C8: when the copy from the caller's source buffer faults during a
write that has just allocated a block, the write returns `-EFAULT` and the
allocation is not rolled back: `i_blocks` remains 1 and `i_block` keeps the
recorded index, while size, storage and cursor are untouched. -/
theorem write_copy_fault_keeps_allocation (ino : OsfsInode) (st : Nat → Nat)
    (p len b : Nat) (src : Nat → Nat) (now : Nat) (h : ino.i_blocks = 0) :
    (osfs_write ino st p len (some b) true src now).ret = -EFAULT ∧
    (osfs_write ino st p len (some b) true src now).ino.i_blocks = 1 ∧
    (osfs_write ino st p len (some b) true src now).ino.i_block = b ∧
    (osfs_write ino st p len (some b) true src now).ino.i_size = ino.i_size ∧
    (osfs_write ino st p len (some b) true src now).storage = st ∧
    (osfs_write ino st p len (some b) true src now).pos = p := by
  unfold osfs_write osfs_write_body
  rw [if_pos h]
  simp

/-- Witness for C8 on a concrete unallocated file with a faulting source. -/
theorem write_copy_fault_keeps_allocation_witness :
    (osfs_write ⟨0, 0, 7, 0, 0, false⟩ (fun _ => 2) 1 3 (some 5) true (fun _ => 9) 6).ret = -EFAULT ∧
    (osfs_write ⟨0, 0, 7, 0, 0, false⟩ (fun _ => 2) 1 3 (some 5) true (fun _ => 9) 6).ino.i_blocks = 1 ∧
    (osfs_write ⟨0, 0, 7, 0, 0, false⟩ (fun _ => 2) 1 3 (some 5) true (fun _ => 9) 6).ino.i_block = 5 ∧
    (osfs_write ⟨0, 0, 7, 0, 0, false⟩ (fun _ => 2) 1 3 (some 5) true (fun _ => 9) 6).ino.i_size = (⟨0, 0, 7, 0, 0, false⟩ : OsfsInode).i_size ∧
    (osfs_write ⟨0, 0, 7, 0, 0, false⟩ (fun _ => 2) 1 3 (some 5) true (fun _ => 9) 6).storage = (fun _ => 2) ∧
    (osfs_write ⟨0, 0, 7, 0, 0, false⟩ (fun _ => 2) 1 3 (some 5) true (fun _ => 9) 6).pos = 1 :=
  write_copy_fault_keeps_allocation ⟨0, 0, 7, 0, 0, false⟩ (fun _ => 2) 1 3 5 (fun _ => 9) 6 rfl

/-- Claim C10: a zero-length write on an unallocated file with cursor at most
`BLOCK_SIZE` is not a no-op: it still allocates a block, sets `i_blocks` to 1,
records the block index, stamps `mtime`/`ctime`, marks the record dirty, and
returns 0 bytes written. -/
theorem zero_length_write_allocates (ino : OsfsInode) (st : Nat → Nat)
    (p b : Nat) (src : Nat → Nat) (now : Nat)
    (h : ino.i_blocks = 0) (hp : p ≤ BLOCK_SIZE) :
    (osfs_write ino st p 0 (some b) false src now).ret = 0 ∧
    (osfs_write ino st p 0 (some b) false src now).ino.i_blocks = 1 ∧
    (osfs_write ino st p 0 (some b) false src now).ino.i_block = b ∧
    (osfs_write ino st p 0 (some b) false src now).ino.mtime = now ∧
    (osfs_write ino st p 0 (some b) false src now).ino.ctime = now ∧
    (osfs_write ino st p 0 (some b) false src now).ino.dirty = true := by
  have hcl : clipLen p 0 = 0 := by
    unfold clipLen U64 BLOCK_SIZE at *
    split <;> omega
  unfold osfs_write osfs_write_body
  rw [if_pos h]
  simp [hcl, ssizeOf, U64]

/-- Witness for C10 at cursor exactly `BLOCK_SIZE` on a concrete empty file. -/
theorem zero_length_write_allocates_witness :
    (osfs_write ⟨0, 0, 0, 0, 0, false⟩ (fun _ => 1) 4096 0 (some 3) false (fun _ => 2) 11).ret = 0 ∧
    (osfs_write ⟨0, 0, 0, 0, 0, false⟩ (fun _ => 1) 4096 0 (some 3) false (fun _ => 2) 11).ino.i_blocks = 1 ∧
    (osfs_write ⟨0, 0, 0, 0, 0, false⟩ (fun _ => 1) 4096 0 (some 3) false (fun _ => 2) 11).ino.i_block = 3 ∧
    (osfs_write ⟨0, 0, 0, 0, 0, false⟩ (fun _ => 1) 4096 0 (some 3) false (fun _ => 2) 11).ino.mtime = 11 ∧
    (osfs_write ⟨0, 0, 0, 0, 0, false⟩ (fun _ => 1) 4096 0 (some 3) false (fun _ => 2) 11).ino.ctime = 11 ∧
    (osfs_write ⟨0, 0, 0, 0, 0, false⟩ (fun _ => 1) 4096 0 (some 3) false (fun _ => 2) 11).ino.dirty = true :=
  zero_length_write_allocates ⟨0, 0, 0, 0, 0, false⟩ (fun _ => 1) 4096 3 (fun _ => 2) 11 rfl
    (by decide)

/-- Claim C1 (failing input for the claimed clamping): at cursor 4097, one past
`BLOCK_SIZE = 4096`, with requested length 1 on an allocated file, the
clipping `len = BLOCK_SIZE - *ppos` underflows as `size_t` to `2 ^ 64 - 1`
instead of clamping to zero, and the call returns `-1` (that huge count
reinterpreted as `ssize_t`), so the bytes-written bound fails. -/
theorem write_past_block_underflows :
    clipLen 4097 1 = 2 ^ 64 - 1 ∧
    (osfs_write ⟨1, 0, 0, 0, 0, false⟩ (fun _ => 0) 4097 1 none false (fun _ => 9) 0).ret = -1 := by
  constructor
  · decide
  · decide

/-- Claim C2 (failing input for range confinement): the same underflowing
write, on the file owning block 0 whose byte range is `[0, BLOCK_SIZE)`,
stores a source byte (here 9, over an all-zero region) at absolute offset
4097, which lies at or past the end of the file's block. -/
theorem write_escapes_block_range :
    (osfs_write ⟨1, 0, 0, 0, 0, false⟩ (fun _ => 0) 4097 1 none false (fun _ => 9) 0).storage 4097 = 9 ∧
    ¬ 4097 < 0 * BLOCK_SIZE + BLOCK_SIZE := by
  constructor
  · decide
  · decide

/-- Claim C4: from any file state, cursor in the non-negative `loff_t` range
and requested length in the `size_t` range, a successful write (non-negative
return) followed immediately by a fault-free read at the same starting
cursor, requesting the number of bytes the write reported, returns exactly
the bytes that were written. -/
theorem write_then_read_roundtrip (ino : OsfsInode) (st : Nat → Nat) (p len : Nat)
    (alloc : Option Nat) (fault : Bool) (src : Nat → Nat) (now : Nat)
    (hp : p < 2 ^ 63) (hlen : len < U64)
    (h : 0 ≤ (osfs_write ino st p len alloc fault src now).ret) :
    osfs_read (osfs_write ino st p len alloc fault src now).ino
        (osfs_write ino st p len alloc fault src now).storage p
        (osfs_write ino st p len alloc fault src now).ret.toNat false =
      ⟨(osfs_write ino st p len alloc fault src now).ret,
       (osfs_write ino st p len alloc fault src now).ino,
       p + (osfs_write ino st p len alloc fault src now).ret.toNat,
       (List.range (osfs_write ino st p len alloc fault src now).ret.toNat).map src⟩ := by
  by_cases hb : ino.i_blocks = 0
  · simp only [osfs_write, if_pos hb] at h ⊢
    cases alloc with
    | none =>
        dsimp only at h
        exact absurd h (by decide)
    | some b =>
        cases fault with
        | true =>
            have hr : (osfs_write_body { ino with i_blocks := 1, i_block := b } st p len true src now).ret = -EFAULT := rfl
            rw [hr] at h
            exact absurd h (by decide)
        | false =>
            exact write_body_roundtrip { ino with i_blocks := 1, i_block := b } st p len src
              now (by simp) hp hlen h
  · simp only [osfs_write, if_neg hb] at h ⊢
    cases fault with
    | true =>
        have hr : (osfs_write_body ino st p len true src now).ret = -EFAULT := rfl
        rw [hr] at h
        exact absurd h (by decide)
    | false => exact write_body_roundtrip ino st p len src now hb hp hlen h

/-- Witness for C4: write three bytes to a fresh file at cursor 0, read them
back. -/
theorem write_then_read_roundtrip_witness :
    0 ≤ (osfs_write ⟨0, 0, 0, 0, 0, false⟩ (fun _ => 0) 0 3 (some 2) false (fun k => k + 65) 5).ret ∧
    osfs_read (osfs_write ⟨0, 0, 0, 0, 0, false⟩ (fun _ => 0) 0 3 (some 2) false (fun k => k + 65) 5).ino
        (osfs_write ⟨0, 0, 0, 0, 0, false⟩ (fun _ => 0) 0 3 (some 2) false (fun k => k + 65) 5).storage 0
        (osfs_write ⟨0, 0, 0, 0, 0, false⟩ (fun _ => 0) 0 3 (some 2) false (fun k => k + 65) 5).ret.toNat false =
      ⟨(osfs_write ⟨0, 0, 0, 0, 0, false⟩ (fun _ => 0) 0 3 (some 2) false (fun k => k + 65) 5).ret,
       (osfs_write ⟨0, 0, 0, 0, 0, false⟩ (fun _ => 0) 0 3 (some 2) false (fun k => k + 65) 5).ino,
       0 + (osfs_write ⟨0, 0, 0, 0, 0, false⟩ (fun _ => 0) 0 3 (some 2) false (fun k => k + 65) 5).ret.toNat,
       (List.range (osfs_write ⟨0, 0, 0, 0, 0, false⟩ (fun _ => 0) 0 3 (some 2) false (fun k => k + 65) 5).ret.toNat).map (fun k => k + 65)⟩ :=
  ⟨by decide,
   write_then_read_roundtrip ⟨0, 0, 0, 0, 0, false⟩ (fun _ => 0) 0 3 (some 2) false
     (fun k => k + 65) 5 (by decide) (by decide) (by decide)⟩

/-- Claim C5: on an allocated file satisfying the size invariant and with no
64-bit overflow in `cursor + len`, a fault-free read at or past
`logical_size` transfers 0 bytes; below it, the read returns exactly
`min(len, logical_size - cursor)` bytes, never reaching past `logical_size`,
and advances the cursor by exactly that count. -/
theorem read_returns_min_of_size (ino : OsfsInode) (st : Nat → Nat) (p len : Nat)
    (hb : ino.i_blocks = 1) (hs : ino.i_size ≤ BLOCK_SIZE) (hov : p + len < U64) :
    (ino.i_size ≤ p → osfs_read ino st p len false = ⟨0, ino, p, []⟩) ∧
    (p < ino.i_size →
      (osfs_read ino st p len false).ret = ((min len (ino.i_size - p) : Nat) : Int) ∧
      (osfs_read ino st p len false).pos = p + min len (ino.i_size - p) ∧
      (osfs_read ino st p len false).data.length = min len (ino.i_size - p) ∧
      p + min len (ino.i_size - p) ≤ ino.i_size) := by
  have hb0 : ¬ ino.i_blocks = 0 := by omega
  constructor
  · intro hpe
    unfold osfs_read
    rw [if_neg hb0, if_pos hpe]
  · intro hlt
    have hBS : BLOCK_SIZE = 4096 := rfl
    have hU : U64 = 2 ^ 64 := rfl
    have hmin_le : min len (ino.i_size - p) ≤ ino.i_size - p := Nat.min_le_right _ _
    have h63 : min len (ino.i_size - p) < 2 ^ 63 := by omega
    have hposlt : p + min len (ino.i_size - p) < U64 := by omega
    unfold osfs_read
    rw [if_neg hb0, if_neg (by omega : ¬ ino.i_size ≤ p)]
    simp only [readLen_eq_min _ _ _ hov hlt, Bool.false_eq_true, if_false]
    rw [ssizeOf_eq_of_lt _ h63, Nat.mod_eq_of_lt hposlt]
    refine ⟨rfl, rfl, ?_, by omega⟩
    simp

/-- Witness for C5 at `logical_size = 10`, cursor 2, requested length 100. -/
theorem read_returns_min_of_size_witness :
    (⟨1, 0, 10, 3, 4, true⟩ : OsfsInode).i_blocks = 1 ∧
    (⟨1, 0, 10, 3, 4, true⟩ : OsfsInode).i_size ≤ BLOCK_SIZE ∧
    2 + 100 < U64 ∧
    (((⟨1, 0, 10, 3, 4, true⟩ : OsfsInode).i_size ≤ 2 →
        osfs_read ⟨1, 0, 10, 3, 4, true⟩ (fun a => a) 2 100 false =
          ⟨0, ⟨1, 0, 10, 3, 4, true⟩, 2, []⟩) ∧
     (2 < (⟨1, 0, 10, 3, 4, true⟩ : OsfsInode).i_size →
        (osfs_read ⟨1, 0, 10, 3, 4, true⟩ (fun a => a) 2 100 false).ret =
          ((min 100 ((⟨1, 0, 10, 3, 4, true⟩ : OsfsInode).i_size - 2) : Nat) : Int) ∧
        (osfs_read ⟨1, 0, 10, 3, 4, true⟩ (fun a => a) 2 100 false).pos =
          2 + min 100 ((⟨1, 0, 10, 3, 4, true⟩ : OsfsInode).i_size - 2) ∧
        (osfs_read ⟨1, 0, 10, 3, 4, true⟩ (fun a => a) 2 100 false).data.length =
          min 100 ((⟨1, 0, 10, 3, 4, true⟩ : OsfsInode).i_size - 2) ∧
        2 + min 100 ((⟨1, 0, 10, 3, 4, true⟩ : OsfsInode).i_size - 2) ≤
          (⟨1, 0, 10, 3, 4, true⟩ : OsfsInode).i_size)) :=
  ⟨rfl, by decide, by decide,
   read_returns_min_of_size ⟨1, 0, 10, 3, 4, true⟩ (fun a => a) 2 100 rfl (by decide) (by decide)⟩

/-- Claim C9: a successful write never shrinks the file: the new
`logical_size` equals the advanced cursor when that exceeds the old size, is
unchanged otherwise, and in all cases is at least the old size. -/
theorem write_success_never_shrinks (ino : OsfsInode) (st : Nat → Nat) (p len : Nat)
    (alloc : Option Nat) (fault : Bool) (src : Nat → Nat) (now : Nat)
    (h : 0 ≤ (osfs_write ino st p len alloc fault src now).ret) :
    ((osfs_write ino st p len alloc fault src now).pos > ino.i_size →
      (osfs_write ino st p len alloc fault src now).ino.i_size =
        (osfs_write ino st p len alloc fault src now).pos) ∧
    ((osfs_write ino st p len alloc fault src now).pos ≤ ino.i_size →
      (osfs_write ino st p len alloc fault src now).ino.i_size = ino.i_size) ∧
    ino.i_size ≤ (osfs_write ino st p len alloc fault src now).ino.i_size := by
  by_cases hb : ino.i_blocks = 0
  · simp only [osfs_write, if_pos hb] at h ⊢
    cases alloc with
    | none =>
        have hr : (⟨-ENOSPC, ino, st, p⟩ : WriteResult).ret = -ENOSPC := rfl
        rw [hr] at h
        exact absurd h (by decide)
    | some b =>
        exact write_body_size_monotone { ino with i_blocks := 1, i_block := b } st p len
          fault src now h
  · simp only [osfs_write, if_neg hb] at h ⊢
    exact write_body_size_monotone ino st p len fault src now h

/-- Witness for C9: a growing write (cursor 3 + 4 bytes past size 5). -/
theorem write_success_never_shrinks_witness :
    0 ≤ (osfs_write ⟨1, 2, 5, 0, 0, false⟩ (fun _ => 0) 3 4 none false (fun _ => 8) 9).ret ∧
    (((osfs_write ⟨1, 2, 5, 0, 0, false⟩ (fun _ => 0) 3 4 none false (fun _ => 8) 9).pos >
        (⟨1, 2, 5, 0, 0, false⟩ : OsfsInode).i_size →
      (osfs_write ⟨1, 2, 5, 0, 0, false⟩ (fun _ => 0) 3 4 none false (fun _ => 8) 9).ino.i_size =
        (osfs_write ⟨1, 2, 5, 0, 0, false⟩ (fun _ => 0) 3 4 none false (fun _ => 8) 9).pos) ∧
     ((osfs_write ⟨1, 2, 5, 0, 0, false⟩ (fun _ => 0) 3 4 none false (fun _ => 8) 9).pos ≤
        (⟨1, 2, 5, 0, 0, false⟩ : OsfsInode).i_size →
      (osfs_write ⟨1, 2, 5, 0, 0, false⟩ (fun _ => 0) 3 4 none false (fun _ => 8) 9).ino.i_size =
        (⟨1, 2, 5, 0, 0, false⟩ : OsfsInode).i_size) ∧
     (⟨1, 2, 5, 0, 0, false⟩ : OsfsInode).i_size ≤
       (osfs_write ⟨1, 2, 5, 0, 0, false⟩ (fun _ => 0) 3 4 none false (fun _ => 8) 9).ino.i_size) :=
  ⟨by decide,
   write_success_never_shrinks ⟨1, 2, 5, 0, 0, false⟩ (fun _ => 0) 3 4 none false (fun _ => 8) 9
     (by decide)⟩

end Osfs
